import Mathlib

/-!
# Verification of the Profile Intake service

Shallow embedding of the Profile Intake server (`src/server/app/`):
the SQLAlchemy data model (`models.py`), the configuration object
(`config.py`), the bearer-token authentication gate (`auth.py`) and the
four API route handlers plus the background completion task
(`routes.py`).

Modelling conventions:
* Database tables are lists of rows; a row insert appends at the end.
  SQLite's primary-key and unique-column constraints declared in
  `models.py` are enforced at commit time, so the embedded operations
  check them and answer with `integrityError` (an unhandled
  `IntegrityError`, surfaced by the framework as HTTP 500).
* `uuid.uuid4()` and `datetime.utcnow()` are nondeterministic; each
  operation takes the generated id (`fid`) and the clock reading (`now`)
  as explicit parameters.  The transition relation `Step` supplies the
  guarantee of the uuid4 generator (the fresh id is a non-empty string
  distinct from every id already in the state) as hypotheses.
* The filesystem is a list of `(path, contents)` pairs; file contents
  are byte lists.  `upload_submission` takes a `writeOk` flag modelling
  whether the `open`/`copyfileobj` write after the database commit
  succeeds, which makes the commit-before-write ordering observable.
* Handlers raise `HTTPException` before any mutation on every error
  path, so each embedded operation returns the unchanged state together
  with the error.
-/

deriving instance DecidableEq for Except

namespace ProfileIntake

/-- HTTP-level failures raised by the handlers (`HTTPException` in
`routes.py` / `auth.py`), FastAPI's request-validation failure, and the
`IntegrityError` that SQLite raises when a unique constraint from
`models.py` is violated (the latter escapes the handler and surfaces as
a 500, outside the documented error taxonomy). -/
inductive ApiError where
  | validationError422
  | unauthorized401
  | notFound404
  | invalidFileType400
  | conflict409
  | integrityError
deriving DecidableEq, Repr

/-- The HTTP status code each failure surfaces as. -/
def ApiError.statusCode : ApiError → Nat
  | .validationError422 => 422
  | .unauthorized401 => 401
  | .notFound404 => 404
  | .invalidFileType400 => 400
  | .conflict409 => 409
  | .integrityError => 500

/-- An HTTP error response: status code plus extra response headers.
`HTTPException(status_code=..., detail=...)` without a `headers`
argument produces a response with no extra headers, in particular no
`WWW-Authenticate` challenge. -/
structure ErrorResponse where
  status_code : Nat
  headers : List (String × String)
deriving DecidableEq, Repr

/-- The error response a raised `ApiError` turns into. -/
def ApiError.toResponse (e : ApiError) : ErrorResponse :=
  { status_code := e.statusCode, headers := [] }

/-- `Settings` from `config.py` (pydantic `BaseSettings`). -/
structure Settings where
  api_token : String
  database_url : String := "sqlite:///./data.db"
  upload_dir : String := "./uploads"
  allowed_file_types : List String := ["pdf"]
  max_file_size_mb : Nat := 10
  enable_cors : Bool := true
  cors_origins : List String := ["*"]
  log_level : String := "info"
deriving DecidableEq, Repr

/-- `ProfileCreate` from `schemas.py`: the request payload for profile
creation. -/
structure ProfileCreate where
  first_name : String
  last_name : String
  email : String
  github_url : Option String
deriving DecidableEq, Repr

/-- A row of the `profiles` table (`Profile` in `models.py`).
Timestamps are modelled as natural numbers (ticks of a global clock). -/
structure Profile where
  id : String
  first_name : String
  last_name : String
  email : String
  github_url : Option String
  created_at : Nat
deriving DecidableEq, Repr

/-- A row of the `submissions` table (`Submission` in `models.py`).
`status` is a plain string column, assigned the literals `"UPLOADED"`,
`"PROCESSING"`, `"COMPLETED"` by the handlers. -/
structure Submission where
  id : String
  profile_id : String
  filename : String
  status : String
  locked : Bool
  created_at : Nat
deriving DecidableEq, Repr

/-- The whole persistent state of the service: the two database tables,
the files written under the upload directory, and the queue of
background completion tasks scheduled via `BackgroundTasks.add_task`
(identified by the submission id they were scheduled with). -/
structure ServerState where
  profiles : List Profile
  submissions : List Submission
  files : List (String × List Nat)
  pending : List String
deriving DecidableEq, Repr

/-- The empty state the service starts from (fresh database, empty
upload directory, no scheduled tasks). -/
def initialState : ServerState :=
  { profiles := [], submissions := [], files := [], pending := [] }

/-- Every id present in the state's two tables; the uuid4 generator is
assumed never to return one of these again. -/
def allIds (s : ServerState) : List String :=
  s.profiles.map (fun p => p.id) ++ s.submissions.map (fun r => r.id)

/-! ## Authentication gate (`auth.py`) -/

/-- `require_auth` from `auth.py`: strict string comparison of the
`Authorization` header against `"Bearer " + settings.api_token`; any
mismatch raises `HTTPException(401)` (with no extra headers). -/
def require_auth (cfg : Settings) (authorization : String) : Option ErrorResponse :=
  if authorization != "Bearer " ++ cfg.api_token then
    some { status_code := 401, headers := [] }
  else
    none

/-- The framework layer around `require_auth`: the header is declared
`Header(...)` (required), so a request with no `Authorization` header is
rejected by FastAPI's validation with a 422 response before
`require_auth` runs.  Returns the error response for a rejected
request, `none` when authentication succeeds. -/
def authErrorResponse (cfg : Settings) (authorization : Option String) :
    Option ErrorResponse :=
  match authorization with
  | none => some { status_code := 422, headers := [] }
  | some a => require_auth cfg a

/-- A protected route: the dependency chain runs the authentication
check before the handler body, so a rejected request leaves the state
untouched and the handler's own result is produced only when the check
passes. -/
def guard_auth {α : Type} (cfg : Settings) (authorization : Option String)
    (handler : ServerState → Except ApiError α × ServerState) (s : ServerState) :
    Except ErrorResponse α × ServerState :=
  match authErrorResponse cfg authorization with
  | some e => (.error e, s)
  | none =>
    match handler s with
    | (.error e, s') => (.error e.toResponse, s')
    | (.ok a, s') => (.ok a, s')

/-! ## Validation helpers -/

/-- Character-wise ASCII lowering, embedding `str.lower()` as used on
the filename extension (only ASCII letters are relevant to the
comparison against `".pdf"`). -/
def lowerStr (s : String) : String :=
  String.mk (s.data.map Char.toLower)

/-- Index of the last occurrence of `c` in `p`, or `-1` when absent
(the contract of Python's `str.rfind`). -/
def rlastIdx (c : Char) (p : List Char) : Int :=
  p.enum.foldl (fun acc x => if x.2 = c then (x.1 : Int) else acc) (-1)

/-- The extension part of `os.path.splitext` on POSIX (`sep = '/'`,
no `altsep`, `extsep = '.'`): the suffix from the last dot, provided
that dot lies after the last separator and some non-dot character
stands between them (leading dots of the basename never start an
extension, so `".pdf"` has no extension). -/
def splitextExt (s : String) : String :=
  let p := s.data
  let sepIndex := rlastIdx '/' p
  let dotIndex := rlastIdx '.' p
  if dotIndex > sepIndex then
    if p.enum.any (fun x =>
        decide (sepIndex < (x.1 : Int)) && decide ((x.1 : Int) < dotIndex)
          && decide (x.2 ≠ '.')) then
      String.mk (p.drop dotIndex.toNat)
    else ""
  else ""

/-- `_ensure_pdf_upload` from `routes.py`: the declared content type
must be exactly `"application/pdf"` and the lowered extension of the
(possibly absent, defaulted to `""`) filename must be `".pdf"`; either
check failing raises 400 "Only PDF files are allowed".  `content_type`
and `filename` are `Option String` because Starlette's `UploadFile`
reports both as optional. -/
def ensure_pdf_upload (content_type : Option String) (filename : Option String) :
    Except ApiError Unit :=
  if content_type != some "application/pdf" then
    .error .invalidFileType400
  else if lowerStr (splitextExt (filename.getD "")) != ".pdf" then
    .error .invalidFileType400
  else
    .ok ()

/-- Split a character list on a separator character (the list-level
analogue of `str.split(sep)`, splitting on every occurrence). -/
def splitOnChar (c : Char) : List Char → List (List Char)
  | [] => [[]]
  | a :: rest =>
    match splitOnChar c rest with
    | [] => [[]]
    | h :: t => if a = c then [] :: h :: t else (a :: h) :: t

/-- Abstraction of pydantic's `EmailStr` syntactic validation (the
validator itself is library code outside this repository): exactly one
`@`, a non-empty local part, and a domain made of at least two
non-empty dot-separated labels. -/
def validEmail (e : String) : Bool :=
  match splitOnChar '@' e.data with
  | [local_part, domain] =>
    !local_part.isEmpty && !domain.isEmpty
      && decide (2 ≤ (splitOnChar '.' domain).length)
      && (splitOnChar '.' domain).all (fun lbl => !lbl.isEmpty)
  | _ => false

/-- The `ProfileCreate` validation from `schemas.py`: `first_name` and
`last_name` have `min_length=1` (at least one character) and `email` is
an `EmailStr`. -/
def validProfileCreate (p : ProfileCreate) : Bool :=
  !p.first_name.data.isEmpty && !p.last_name.data.isEmpty && validEmail p.email

/-! ## Route handlers (`routes.py`) -/

/-- The `Profile` row built by `Profile(**payload.model_dump())` with
the server-side defaults `id = str(uuid.uuid4())` and
`created_at = datetime.utcnow()`. -/
def mkProfile (payload : ProfileCreate) (fid : String) (now : Nat) : Profile :=
  { id := fid, first_name := payload.first_name, last_name := payload.last_name,
    email := payload.email, github_url := payload.github_url, created_at := now }

/-- `create_profile` from `routes.py`: validate the payload (FastAPI
answers 422 on violation before the handler body runs), build the row,
`db.add` + `db.commit`.  The commit enforces the primary key on `id`
and the unique index on `email` declared in `models.py`; a violation
raises `IntegrityError` and nothing is inserted. -/
def create_profile (payload : ProfileCreate) (fid : String) (now : Nat)
    (s : ServerState) : Except ApiError Profile × ServerState :=
  if !validProfileCreate payload then
    (.error .validationError422, s)
  else if s.profiles.any (fun p => p.id == fid || p.email == payload.email) then
    (.error .integrityError, s)
  else
    (.ok (mkProfile payload fid now),
     { s with profiles := s.profiles ++ [mkProfile payload fid now] })

/-- The path `os.path.join(settings.upload_dir, f"{submission.id}.pdf")`
the uploaded bytes are written to: it depends only on the upload
directory and the fresh submission id, never on the client-supplied
filename. -/
def uploadPath (dir fid : String) : String :=
  dir ++ "/" ++ fid ++ ".pdf"

/-- `upload_submission` from `routes.py`: 404 when the profile id does
not resolve, then the PDF checks, then the `Submission` row is built
with `status="UPLOADED"`, `locked=False` and committed, and only then
are the raw bytes written to `uploadPath`.  `writeOk` models whether
that file write succeeds; the committed row persists either way. -/
def upload_submission (cfg : Settings) (profile_id : String)
    (filename : Option String) (content_type : Option String)
    (contents : List Nat) (fid : String) (now : Nat) (writeOk : Bool)
    (s : ServerState) : Except ApiError Submission × ServerState :=
  match s.profiles.find? (fun p => p.id == profile_id) with
  | none => (.error .notFound404, s)
  | some _ =>
    match ensure_pdf_upload content_type filename with
    | .error e => (.error e, s)
    | .ok _ =>
      if s.submissions.any (fun r => r.id == fid) then
        (.error .integrityError, s)
      else
        (.ok { id := fid, profile_id := profile_id, filename := filename.getD "",
               status := "UPLOADED", locked := false, created_at := now },
         { s with
           submissions := s.submissions ++
             [{ id := fid, profile_id := profile_id, filename := filename.getD "",
                status := "UPLOADED", locked := false, created_at := now }],
           files :=
             if writeOk then
               s.files ++ [(uploadPath cfg.upload_dir fid, contents)]
             else s.files })

/-- Update every row of the `submissions` table whose primary key is
`sid` (there is at most one, by primary-key uniqueness). -/
def updateById (sid : String) (f : Submission → Submission)
    (subs : List Submission) : List Submission :=
  subs.map (fun r => if r.id == sid then f r else r)

/-- `submit` from `routes.py`: 404 when the submission id does not
resolve, 409 when the row is already locked, otherwise set
`locked=True`, `status="PROCESSING"`, commit, and schedule exactly one
background completion task for this submission id. -/
def submit (submission_id : String) (s : ServerState) :
    Except ApiError Submission × ServerState :=
  match s.submissions.find? (fun r => r.id == submission_id) with
  | none => (.error .notFound404, s)
  | some sub =>
    if sub.locked then
      (.error .conflict409, s)
    else
      (.ok { sub with locked := true, status := "PROCESSING" },
        { s with
          submissions :=
            updateById submission_id
              (fun r => { r with locked := true, status := "PROCESSING" })
              s.submissions,
          pending := s.pending ++ [submission_id] })

/-- `get_submission_status` from `routes.py`: a pure read; 404 when the
id does not resolve, otherwise the current row. -/
def get_submission_status (submission_id : String) (s : ServerState) :
    Except ApiError Submission :=
  match s.submissions.find? (fun r => r.id == submission_id) with
  | none => .error .notFound404
  | some sub => .ok sub

/-- `process_submission` from `routes.py` (the background completion
task): after the fixed delay, look the submission up; if it no longer
exists, return silently with nothing changed, otherwise set
`status="COMPLETED"` and commit.  No other field and no other row is
touched. -/
def process_submission (submission_id : String) (s : ServerState) : ServerState :=
  match s.submissions.find? (fun r => r.id == submission_id) with
  | none => s
  | some _ =>
    { s with
      submissions :=
        updateById submission_id (fun r => { r with status := "COMPLETED" })
          s.submissions }

/-! ## The transition system

One step is a successful state-changing operation: profile creation,
submission upload, submit, or the execution of one scheduled background
task.  Failed requests raise before any commit and leave the state
unchanged, and `get_submission_status` is a pure read, so such requests
do not change the state and reachability is unaffected by omitting
them.  The hypotheses on `fid` encode the uuid4 generator's guarantee:
a fresh id is a non-empty string distinct from every existing id. -/

inductive Step (cfg : Settings) : ServerState → ServerState → Prop
  | create_profile_step (payload : ProfileCreate) (fid : String) (now : Nat)
      (prof : Profile) (s s' : ServerState)
      (hfresh : fid ∉ allIds s) (hne : fid ≠ "")
      (h : create_profile payload fid now s = (.ok prof, s')) : Step cfg s s'
  | upload_step (profile_id : String) (filename content_type : Option String)
      (contents : List Nat) (fid : String) (now : Nat) (writeOk : Bool)
      (sub : Submission) (s s' : ServerState)
      (hfresh : fid ∉ allIds s) (hne : fid ≠ "")
      (h : upload_submission cfg profile_id filename content_type contents fid
            now writeOk s = (.ok sub, s')) : Step cfg s s'
  | submit_step (sid : String) (sub : Submission) (s s' : ServerState)
      (h : submit sid s = (.ok sub, s')) : Step cfg s s'
  | run_task_step (sid : String) (s : ServerState)
      (hmem : sid ∈ s.pending) :
      Step cfg s { process_submission sid s with pending := s.pending.erase sid }

/-- A state the service can be in: reachable from the fresh initial
state by any sequence of operations. -/
def Reachable (cfg : Settings) (s : ServerState) : Prop :=
  Relation.ReflTransGen (Step cfg) initialState s

/-- The lifecycle properties of one submission row: the spec's two
invariants plus the fact that the status column only ever holds one of
the three values the transitions assign. -/
def StatusOk (sub : Submission) : Prop :=
  (sub.locked = true → sub.status ≠ "UPLOADED") ∧
  (sub.status = "COMPLETED" → sub.locked = true) ∧
  (sub.status = "UPLOADED" ∨ sub.status = "PROCESSING" ∨ sub.status = "COMPLETED")

/-- The inductive invariant of the transition system: every submission
row satisfies its lifecycle properties, every scheduled task id belongs
to a submission and every row carrying it is locked, and primary keys
are unique. -/
def SubInv (s : ServerState) : Prop :=
  (∀ sub ∈ s.submissions, StatusOk sub) ∧
  (∀ sid ∈ s.pending, sid ∈ s.submissions.map (fun r => r.id) ∧
    ∀ sub ∈ s.submissions, sub.id = sid → sub.locked = true) ∧
  (s.submissions.map (fun r => r.id)).Nodup

/-! ## Concrete sample run

A configuration and the states of one end-to-end run (create a profile,
upload a PDF, submit it, run the completion task), used to exercise the
theorems on concrete inputs. -/

/-- A sample configuration (defaults from `config.py`, a concrete
token). -/
def cfg0 : Settings := { api_token := "secret-token" }

/-- A second sample configuration differing from `cfg0` exactly in
`allowed_file_types` and `max_file_size_mb`. -/
def cfg1 : Settings :=
  { api_token := "secret-token", allowed_file_types := ["png"], max_file_size_mb := 0 }

/-- A valid profile-creation payload. -/
def payload0 : ProfileCreate :=
  { first_name := "John", last_name := "Smith",
    email := "john.smith@example.com", github_url := none }

/-- The profile row created from `payload0` at time 0 with fresh id
`"p1"`. -/
def prof0 : Profile :=
  { id := "p1", first_name := "John", last_name := "Smith",
    email := "john.smith@example.com", github_url := none, created_at := 0 }

/-- State after creating `prof0` in the initial state. -/
def st1 : ServerState :=
  { profiles := [prof0], submissions := [], files := [], pending := [] }

/-- The submission row created by the sample upload. -/
def sub0 : Submission :=
  { id := "s1", profile_id := "p1", filename := "resume.pdf",
    status := "UPLOADED", locked := false, created_at := 1 }

/-- The bytes of the sample upload (`"%PDF"`). -/
def pdfBytes : List Nat := [37, 80, 68, 70]

/-- A second valid payload carrying the same email as `payload0`. -/
def payload1 : ProfileCreate :=
  { first_name := "Jane", last_name := "Doe",
    email := "john.smith@example.com", github_url := none }

/-- A payload violating the `min_length=1` rule on `first_name`. -/
def payloadBad : ProfileCreate :=
  { first_name := "", last_name := "Smith", email := "a@b.com",
    github_url := none }

/-- State after uploading `resume.pdf` for `prof0`. -/
def st2 : ServerState :=
  { profiles := [prof0], submissions := [sub0],
    files := [("./uploads/s1.pdf", pdfBytes)], pending := [] }

/-- `sub0` after the submit transition. -/
def sub1 : Submission :=
  { id := "s1", profile_id := "p1", filename := "resume.pdf",
    status := "PROCESSING", locked := true, created_at := 1 }

/-- State after submitting `sub0`: the row is locked and one completion
task is scheduled. -/
def st3 : ServerState :=
  { profiles := [prof0], submissions := [sub1],
    files := [("./uploads/s1.pdf", pdfBytes)], pending := ["s1"] }

/-- `sub1` after the completion task ran. -/
def sub2 : Submission :=
  { id := "s1", profile_id := "p1", filename := "resume.pdf",
    status := "COMPLETED", locked := true, created_at := 1 }

/-- State after the scheduled completion task ran. -/
def st4 : ServerState :=
  { profiles := [prof0], submissions := [sub2],
    files := [("./uploads/s1.pdf", pdfBytes)], pending := [] }

/-! ## Helper lemmas -/

theorem updateById_id (sid : String) (f : Submission → Submission)
    (hf : ∀ r, (f r).id = r.id) (l : List Submission) :
    (updateById sid f l).map (fun r => r.id) = l.map (fun r => r.id) := by
  unfold updateById
  rw [List.map_map]
  refine List.map_congr_left ?_
  intro r _
  by_cases h : (r.id == sid) = true
  · simp [Function.comp, h, hf]
  · simp [Function.comp, h]

theorem find?_updateById (sid : String) (f : Submission → Submission)
    (hf : ∀ r, (f r).id = r.id) (l : List Submission) :
    (updateById sid f l).find? (fun r => r.id == sid)
      = (l.find? (fun r => r.id == sid)).map f := by
  induction l with
  | nil => rfl
  | cons a l ih =>
    rw [show updateById sid f (a :: l)
        = (if (a.id == sid) = true then f a else a) :: updateById sid f l from rfl]
    by_cases h : (a.id == sid) = true
    · rw [if_pos h,
        @List.find?_cons_of_pos _ (fun r => r.id == sid) (f a) (updateById sid f l)
          (by simpa [hf] using h),
        @List.find?_cons_of_pos _ (fun r => r.id == sid) a l h, Option.map_some']
    · rw [if_neg h,
        @List.find?_cons_of_neg _ (fun r => r.id == sid) a (updateById sid f l) h,
        @List.find?_cons_of_neg _ (fun r => r.id == sid) a l h, ih]

theorem mem_updateById {x : Submission} {sid : String}
    {f : Submission → Submission} {l : List Submission}
    (h : x ∈ updateById sid f l) :
    ∃ r ∈ l, x = if (r.id == sid) = true then f r else r := by
  unfold updateById at h
  obtain ⟨r, hr, hx⟩ := List.mem_map.mp h
  exact ⟨r, hr, by rw [← hx]⟩

theorem create_profile_ok {payload : ProfileCreate} {fid : String} {now : Nat}
    {s : ServerState} {prof : Profile} {s' : ServerState}
    (h : create_profile payload fid now s = (.ok prof, s')) :
    validProfileCreate payload = true ∧
    s.profiles.any (fun p => p.id == fid || p.email == payload.email) = false ∧
    prof = mkProfile payload fid now ∧
    s' = { s with profiles := s.profiles ++ [prof] } := by
  unfold create_profile at h
  split at h
  · simp at h
  · split at h
    · simp at h
    · rename_i h1 h2
      simp only [Prod.mk.injEq, Except.ok.injEq] at h
      obtain ⟨h3, h4⟩ := h
      refine ⟨by simpa using h1, by simpa using h2, h3.symm, ?_⟩
      rw [← h4, h3]

theorem upload_submission_ok {cfg : Settings} {pid : String}
    {fn ct : Option String} {contents : List Nat} {fid : String} {now : Nat}
    {wok : Bool} {s : ServerState} {sub : Submission} {s' : ServerState}
    (h : upload_submission cfg pid fn ct contents fid now wok s = (.ok sub, s')) :
    (∃ p, s.profiles.find? (fun q => q.id == pid) = some p) ∧
    ensure_pdf_upload ct fn = .ok () ∧
    s.submissions.any (fun r => r.id == fid) = false ∧
    sub = { id := fid, profile_id := pid, filename := fn.getD "",
            status := "UPLOADED", locked := false, created_at := now } ∧
    s' = { s with
      submissions := s.submissions ++ [sub],
      files :=
        if wok then s.files ++ [(uploadPath cfg.upload_dir fid, contents)]
        else s.files } := by
  unfold upload_submission at h
  split at h
  · simp at h
  · rename_i p hp
    split at h
    · simp at h
    · rename_i u hu
      split at h
      · simp at h
      · rename_i hany
        simp only [Prod.mk.injEq, Except.ok.injEq] at h
        obtain ⟨h3, h4⟩ := h
        refine ⟨⟨p, hp⟩, ?_, by simpa using hany, h3.symm, ?_⟩
        · cases hu' : ensure_pdf_upload ct fn with
          | error e => rw [hu'] at hu; exact absurd hu (by simp)
          | ok v => cases v; rfl
        · rw [← h4, h3]

theorem submit_ok {sid : String} {s : ServerState} {sub' : Submission}
    {s' : ServerState} (h : submit sid s = (.ok sub', s')) :
    ∃ sub, s.submissions.find? (fun r => r.id == sid) = some sub ∧
      sub.locked = false ∧
      sub' = { sub with locked := true, status := "PROCESSING" } ∧
      s' = { s with
        submissions :=
          updateById sid (fun r => { r with locked := true, status := "PROCESSING" })
            s.submissions,
        pending := s.pending ++ [sid] } := by
  unfold submit at h
  split at h
  · simp at h
  · rename_i sub hfind
    split at h
    · simp at h
    · rename_i hlocked
      simp only [Prod.mk.injEq, Except.ok.injEq] at h
      obtain ⟨h3, h4⟩ := h
      exact ⟨sub, hfind, by simpa using hlocked, h3.symm, h4.symm⟩

theorem process_submission_profiles (sid : String) (s : ServerState) :
    (process_submission sid s).profiles = s.profiles := by
  unfold process_submission
  split <;> rfl

theorem process_submission_files (sid : String) (s : ServerState) :
    (process_submission sid s).files = s.files := by
  unfold process_submission
  split <;> rfl

theorem process_submission_pending (sid : String) (s : ServerState) :
    (process_submission sid s).pending = s.pending := by
  unfold process_submission
  split <;> rfl

theorem process_submission_submissions (sid : String) (s : ServerState) :
    (process_submission sid s).submissions = s.submissions ∨
    (process_submission sid s).submissions =
      updateById sid (fun r => { r with status := "COMPLETED" }) s.submissions := by
  unfold process_submission
  split
  · exact Or.inl rfl
  · exact Or.inr rfl

/-! ## Preservation of the inductive invariant -/

theorem subInv_initial : SubInv initialState := by
  refine ⟨?_, ?_, ?_⟩ <;> simp [initialState]

theorem subInv_run_task {s : ServerState} {sid : String}
    (hs : SubInv s) (hmem : sid ∈ s.pending) :
    SubInv { process_submission sid s with pending := s.pending.erase sid } := by
  obtain ⟨hso, hpend, hnd⟩ := hs
  have hps := process_submission_submissions sid s
  refine ⟨?_, ?_, ?_⟩
  · intro x hx
    have hx' : x ∈ (process_submission sid s).submissions := hx
    rcases hps with heq | heq
    · rw [heq] at hx'
      exact hso x hx'
    · rw [heq] at hx'
      obtain ⟨r, hr, hxr⟩ := mem_updateById hx'
      subst hxr
      by_cases hb : (r.id == sid) = true
      · rw [if_pos hb]
        have hrl : r.locked = true := (hpend sid hmem).2 r hr (by simpa using hb)
        exact ⟨by simp [hrl], fun _ => hrl, Or.inr (Or.inr rfl)⟩
      · rw [if_neg hb]
        exact hso r hr
  · intro sid₂ hsid₂
    have hsid₂' : sid₂ ∈ s.pending :=
      List.mem_of_mem_erase (show sid₂ ∈ s.pending.erase sid from hsid₂)
    obtain ⟨hmem₂, hlock₂⟩ := hpend sid₂ hsid₂'
    refine ⟨?_, ?_⟩
    · show sid₂ ∈ (process_submission sid s).submissions.map (fun r => r.id)
      rcases hps with heq | heq
      · rw [heq]
        exact hmem₂
      · rw [heq, updateById_id sid (fun r => { r with status := "COMPLETED" }) (fun r => rfl)]
        exact hmem₂
    · intro x hx hid₂
      have hx' : x ∈ (process_submission sid s).submissions := hx
      rcases hps with heq | heq
      · rw [heq] at hx'
        exact hlock₂ x hx' hid₂
      · rw [heq] at hx'
        obtain ⟨r, hr, hxr⟩ := mem_updateById hx'
        subst hxr
        by_cases hb : (r.id == sid) = true
        · rw [if_pos hb] at hid₂ ⊢
          exact hlock₂ r hr hid₂
        · rw [if_neg hb] at hid₂ ⊢
          exact hlock₂ r hr hid₂
  · show ((process_submission sid s).submissions.map (fun r => r.id)).Nodup
    rcases hps with heq | heq
    · rw [heq]
      exact hnd
    · rw [heq, updateById_id sid (fun r => { r with status := "COMPLETED" }) (fun r => rfl)]
      exact hnd

theorem subInv_step {cfg : Settings} {s t : ServerState}
    (hs : SubInv s) (hstep : Step cfg s t) : SubInv t := by
  obtain ⟨hso, hpend, hnd⟩ := hs
  cases hstep with
  | create_profile_step payload fid now prof _ _ hfresh hne h =>
    obtain ⟨-, -, -, rfl⟩ := create_profile_ok h
    exact ⟨hso, hpend, hnd⟩
  | upload_step pid fn ct contents fid now wok sub _ _ hfresh hne h =>
    obtain ⟨-, -, hany, hsub, rfl⟩ := upload_submission_ok h
    subst hsub
    refine ⟨?_, ?_, ?_⟩
    · intro x hx
      rcases List.mem_append.mp hx with hx | hx
      · exact hso x hx
      · rcases List.mem_singleton.mp hx with rfl
        exact ⟨by simp, by simp, Or.inl rfl⟩
    · intro sid₂ hsid₂
      obtain ⟨hmem, hlock⟩ := hpend sid₂ hsid₂
      refine ⟨?_, ?_⟩
      · rw [List.map_append]
        exact List.mem_append.mpr (Or.inl hmem)
      · intro x hx hid
        rcases List.mem_append.mp hx with hx | hx
        · exact hlock x hx hid
        · rcases List.mem_singleton.mp hx with rfl
          exfalso
          apply hfresh
          unfold allIds
          refine List.mem_append.mpr (Or.inr ?_)
          rw [show fid = sid₂ from hid]
          exact hmem
    · rw [List.map_append]
      rw [List.nodup_append]
      refine ⟨hnd, List.nodup_singleton _, ?_⟩
      simp only [List.map_cons, List.map_nil, List.disjoint_singleton]
      intro hcon
      exact hfresh (List.mem_append.mpr (Or.inr hcon))
  | submit_step sid sub _ _ h =>
    obtain ⟨sub₀, hfind, hunlocked, -, rfl⟩ := submit_ok h
    refine ⟨?_, ?_, ?_⟩
    · intro x hx
      obtain ⟨r, hr, hxr⟩ := mem_updateById hx
      subst hxr
      by_cases hb : (r.id == sid) = true
      · rw [if_pos hb]
        exact ⟨by simp, by simp, Or.inr (Or.inl rfl)⟩
      · rw [if_neg hb]
        exact hso r hr
    · intro sid₂ hsid₂
      rcases List.mem_append.mp hsid₂ with hs₂ | hs₂
      · obtain ⟨hmem, hlock⟩ := hpend sid₂ hs₂
        refine ⟨?_, ?_⟩
        · rw [updateById_id sid (fun r => { r with locked := true, status := "PROCESSING" }) (fun r => rfl)]
          exact hmem
        · intro x hx hid₂
          obtain ⟨r, hr, hxr⟩ := mem_updateById hx
          subst hxr
          by_cases hb : (r.id == sid) = true
          · rw [if_pos hb]
          · rw [if_neg hb] at hid₂ ⊢
            exact hlock r hr hid₂
      · rcases List.mem_singleton.mp hs₂ with rfl
        refine ⟨?_, ?_⟩
        · rw [updateById_id sid₂ (fun r => { r with locked := true, status := "PROCESSING" }) (fun r => rfl)]
          have hm := List.mem_of_find?_eq_some hfind
          have hp := List.find?_some hfind
          simp only [beq_iff_eq] at hp
          exact List.mem_map.mpr ⟨sub₀, hm, hp⟩
        · intro x hx hid₂
          obtain ⟨r, hr, hxr⟩ := mem_updateById hx
          subst hxr
          by_cases hb : (r.id == sid₂) = true
          · rw [if_pos hb]
          · rw [if_neg hb] at hid₂
            exact absurd (beq_iff_eq.mpr hid₂) hb
    · rw [updateById_id sid (fun r => { r with locked := true, status := "PROCESSING" }) (fun r => rfl)]
      exact hnd
  | run_task_step sid _ hmem =>
    exact subInv_run_task ⟨hso, hpend, hnd⟩ hmem

theorem subInv_reachable {cfg : Settings} {s : ServerState}
    (h : Reachable cfg s) : SubInv s := by
  unfold Reachable at h
  induction h with
  | refl => exact subInv_initial
  | tail h1 h2 ih => exact subInv_step ih h2

/-! ## Small per-operation facts -/

theorem submit_not_found {sid : String} {s : ServerState}
    (h : s.submissions.find? (fun r => r.id == sid) = none) :
    submit sid s = (.error .notFound404, s) := by
  unfold submit
  rw [h]

theorem submit_locked {sid : String} {s : ServerState} {sub : Submission}
    (h : s.submissions.find? (fun r => r.id == sid) = some sub)
    (hl : sub.locked = true) :
    submit sid s = (.error .conflict409, s) := by
  unfold submit
  rw [h]
  simp [hl]

theorem submit_unlocked {sid : String} {s : ServerState} {sub : Submission}
    (h : s.submissions.find? (fun r => r.id == sid) = some sub)
    (hl : sub.locked = false) :
    submit sid s =
      (.ok { sub with locked := true, status := "PROCESSING" },
       { s with
         submissions :=
           updateById sid (fun r => { r with locked := true, status := "PROCESSING" })
             s.submissions,
         pending := s.pending ++ [sid] }) := by
  unfold submit
  rw [h]
  simp [hl]

theorem ensure_pdf_upload_error {ct fn : Option String}
    (h : ct ≠ some "application/pdf" ∨ lowerStr (splitextExt (fn.getD "")) ≠ ".pdf") :
    ensure_pdf_upload ct fn = .error .invalidFileType400 := by
  unfold ensure_pdf_upload
  rcases h with h | h
  · rw [if_pos (by simpa using h)]
  · by_cases hct : (ct != some "application/pdf") = true
    · rw [if_pos hct]
    · rw [if_neg hct, if_pos (by simpa using h)]

theorem ensure_pdf_upload_accepts {ct fn : Option String}
    (h1 : ct = some "application/pdf")
    (h2 : lowerStr (splitextExt (fn.getD "")) = ".pdf") :
    ensure_pdf_upload ct fn = .ok () := by
  unfold ensure_pdf_upload
  rw [if_neg (by simp [h1]), if_neg (by simp [h2])]

theorem ensure_pdf_upload_accepts_inv {ct fn : Option String}
    (h : ensure_pdf_upload ct fn = .ok ()) :
    ct = some "application/pdf" ∧ lowerStr (splitextExt (fn.getD "")) = ".pdf" := by
  unfold ensure_pdf_upload at h
  split at h
  · simp at h
  · split at h
    · simp at h
    · rename_i h1 h2
      exact ⟨by simpa using h1, by simpa using h2⟩

theorem upload_submission_accepts {cfg : Settings} {pid : String}
    {fn ct : Option String} {contents : List Nat} {fid : String} {now : Nat}
    {wok : Bool} {s : ServerState} {p : Profile}
    (hp : s.profiles.find? (fun q => q.id == pid) = some p)
    (hok : ensure_pdf_upload ct fn = .ok ())
    (hany : s.submissions.any (fun r => r.id == fid) = false) :
    ∃ sub s', upload_submission cfg pid fn ct contents fid now wok s
      = (.ok sub, s') := by
  unfold upload_submission
  rw [hp, hok, if_neg (by simp [hany])]
  exact ⟨_, _, rfl⟩

theorem uploadPath_inj {d i j : String} (h : uploadPath d i = uploadPath d j) :
    i = j := by
  unfold uploadPath at h
  have h' := congrArg String.data h
  simp only [String.data_append] at h'
  exact String.ext (List.append_cancel_left (List.append_cancel_right h'))

/-! ## Reachability of the sample run -/

theorem step_init_st1 : Step cfg0 initialState st1 :=
  Step.create_profile_step payload0 "p1" 0 prof0 initialState st1
    (by decide) (by decide) (by decide)

theorem step_st1_st2 : Step cfg0 st1 st2 :=
  Step.upload_step "p1" (some "resume.pdf") (some "application/pdf") pdfBytes
    "s1" 1 true sub0 st1 st2 (by decide) (by decide) (by decide)

theorem step_st2_st3 : Step cfg0 st2 st3 :=
  Step.submit_step "s1" sub1 st2 st3 (by decide)

theorem step_st3_st4 : Step cfg0 st3 st4 := by
  have h : st4 = { process_submission "s1" st3 with pending := st3.pending.erase "s1" } := by
    decide
  rw [h]
  exact Step.run_task_step "s1" st3 (by decide)

theorem reach_st1 : Reachable cfg0 st1 :=
  Relation.ReflTransGen.single step_init_st1

theorem reach_st2 : Reachable cfg0 st2 :=
  Relation.ReflTransGen.tail reach_st1 step_st1_st2

theorem reach_st3 : Reachable cfg0 st3 :=
  Relation.ReflTransGen.tail reach_st2 step_st2_st3

theorem reach_st4 : Reachable cfg0 st4 :=
  Relation.ReflTransGen.tail reach_st3 step_st3_st4

/-! ## Claim theorems -/

/-- C1: `submit` answers 404 when the submission id does not resolve,
409 when the row is locked, and otherwise locks the row, sets its
status to `"PROCESSING"`, persists that, and schedules exactly one
completion task; consequently a second sequential `submit` on the same
id answers 409 and schedules nothing further (the returned state is
unchanged). -/
theorem submit_one_shot (sid : String) (s : ServerState) :
    (s.submissions.find? (fun r => r.id == sid) = none →
      submit sid s = (.error .notFound404, s)) ∧
    (∀ sub, s.submissions.find? (fun r => r.id == sid) = some sub →
      sub.locked = true → submit sid s = (.error .conflict409, s)) ∧
    (∀ sub, s.submissions.find? (fun r => r.id == sid) = some sub →
      sub.locked = false →
      ∃ sub' s', submit sid s = (.ok sub', s') ∧
        sub'.locked = true ∧ sub'.status = "PROCESSING" ∧
        (∀ r ∈ s'.submissions, r.id = sid → r.locked = true ∧ r.status = "PROCESSING") ∧
        s'.pending = s.pending ++ [sid] ∧
        submit sid s' = (.error .conflict409, s')) := by
  refine ⟨submit_not_found, fun sub h hl => submit_locked h hl, ?_⟩
  intro sub h hl
  refine ⟨{ sub with locked := true, status := "PROCESSING" },
    { s with
      submissions :=
        updateById sid (fun r => { r with locked := true, status := "PROCESSING" })
          s.submissions,
      pending := s.pending ++ [sid] },
    submit_unlocked h hl, rfl, rfl, ?_, rfl, ?_⟩
  · intro r hr hrid
    obtain ⟨r₀, hr₀, hxr⟩ := mem_updateById hr
    subst hxr
    by_cases hb : (r₀.id == sid) = true
    · rw [if_pos hb]
      exact ⟨rfl, rfl⟩
    · rw [if_neg hb] at hrid ⊢
      exact absurd (beq_iff_eq.mpr hrid) hb
  · have h' : (({ s with
        submissions :=
          updateById sid (fun r => { r with locked := true, status := "PROCESSING" })
            s.submissions,
        pending := s.pending ++ [sid] } : ServerState)).submissions.find?
          (fun r => r.id == sid)
        = some { sub with locked := true, status := "PROCESSING" } := by
      show (updateById sid (fun r => { r with locked := true, status := "PROCESSING" })
        s.submissions).find? (fun r => r.id == sid) = _
      rw [find?_updateById sid
        (fun r => { r with locked := true, status := "PROCESSING" })
        (fun r => rfl) s.submissions, h, Option.map_some']
    exact submit_locked h' rfl

/-- C1 witness: on the sample state with one unlocked submission, an
unknown id answers 404, and submitting `"s1"` succeeds and makes an
immediate re-submit answer 409. -/
theorem submit_one_shot_witness :
    submit "zzz" st2 = (.error .notFound404, st2) ∧
    (∃ sub' s', submit "s1" st2 = (.ok sub', s') ∧
      sub'.locked = true ∧ sub'.status = "PROCESSING" ∧
      (∀ r ∈ s'.submissions, r.id = "s1" → r.locked = true ∧ r.status = "PROCESSING") ∧
      s'.pending = st2.pending ++ ["s1"] ∧
      submit "s1" s' = (.error .conflict409, s')) :=
  ⟨(submit_one_shot "zzz" st2).1 (by decide),
   (submit_one_shot "s1" st2).2.2 sub0 (by decide) (by decide)⟩

/-- C2: in every reachable state, every submission row satisfies
`locked = true → status ≠ "UPLOADED"` and
`status = "COMPLETED" → locked = true`.  Reachability covers any
sequence of `create_profile`, `upload_submission`, `submit`,
`get_submission_status` (a pure read) and the execution of scheduled
`process_submission` tasks. -/
theorem locked_status_invariant (cfg : Settings) (s : ServerState)
    (h : Reachable cfg s) :
    ∀ sub ∈ s.submissions,
      (sub.locked = true → sub.status ≠ "UPLOADED") ∧
      (sub.status = "COMPLETED" → sub.locked = true) := by
  intro sub hm
  obtain ⟨hso, -, -⟩ := subInv_reachable h
  obtain ⟨a, b, -⟩ := hso sub hm
  exact ⟨a, b⟩

/-- C2 witness: the invariant instantiated at the completed submission
of the concrete four-step run. -/
theorem locked_status_invariant_witness :
    (sub2.locked = true → sub2.status ≠ "UPLOADED") ∧
    (sub2.status = "COMPLETED" → sub2.locked = true) :=
  locked_status_invariant cfg0 st4 reach_st4 sub2 (by decide)

/-- C3 counterexample: a request with no `Authorization` header is
rejected with status 422 (FastAPI's required-header validation), not
401, and neither the 422 nor the 401 rejection carries any response
header, so no bearer challenge is ever sent. -/
theorem auth_missing_header_counterexample :
    authErrorResponse cfg0 none = some { status_code := 422, headers := [] } ∧
    authErrorResponse cfg0 (some "Bearer wrong")
      = some { status_code := 401, headers := [] } ∧
    (422 : Nat) ≠ 401 := by
  refine ⟨by decide, by decide, by decide⟩

/-- C3 (amended): a protected-endpoint request with a missing
`Authorization` header is rejected with 422 (required-header
validation), one with a present but mismatched credential is rejected
with 401; neither rejection carries a `WWW-Authenticate` challenge (the
extra headers are empty), and a rejected request leaves the state
unchanged whatever the handler. -/
theorem auth_reject_behavior {α : Type} (cfg : Settings)
    (authorization : Option String)
    (handler : ServerState → Except ApiError α × ServerState) (s : ServerState) :
    (authorization = none →
      authErrorResponse cfg authorization
        = some { status_code := 422, headers := [] }) ∧
    (∀ a, authorization = some a → a ≠ "Bearer " ++ cfg.api_token →
      authErrorResponse cfg authorization
        = some { status_code := 401, headers := [] }) ∧
    (∀ e, authErrorResponse cfg authorization = some e → e.headers = []) ∧
    (∀ e, authErrorResponse cfg authorization = some e →
      guard_auth cfg authorization handler s = (.error e, s)) := by
  refine ⟨?_, ?_, ?_, ?_⟩
  · intro h
    subst h
    rfl
  · intro a h hne
    subst h
    show require_auth cfg a = _
    unfold require_auth
    rw [if_pos (by simpa using hne)]
  · intro e he
    cases authorization with
    | none =>
      simp only [authErrorResponse, Option.some.injEq] at he
      rw [← he]
    | some a =>
      simp only [authErrorResponse] at he
      unfold require_auth at he
      split at he
      · simp only [Option.some.injEq] at he
        rw [← he]
      · exact absurd he (by simp)
  · intro e he
    unfold guard_auth
    rw [he]

/-- C3 witness: the amended behavior at the sample configuration, for
a missing header and for a wrong bearer value, with the profile-create
handler. -/
theorem auth_reject_behavior_witness :
    authErrorResponse cfg0 none = some { status_code := 422, headers := [] } ∧
    authErrorResponse cfg0 (some "Bearer wrong")
      = some { status_code := 401, headers := [] } ∧
    guard_auth cfg0 none (create_profile payload0 "p2" 3) st1
      = (.error { status_code := 422, headers := [] }, st1) := by
  obtain ⟨h1, -, -, h4⟩ :=
    auth_reject_behavior cfg0 none (create_profile payload0 "p2" 3) st1
  obtain ⟨-, h2, -, -⟩ :=
    auth_reject_behavior cfg0 (some "Bearer wrong") (create_profile payload0 "p2" 3) st1
  exact ⟨h1 rfl, h2 "Bearer wrong" rfl (by decide), h4 _ (h1 rfl)⟩

/-- C4: with an existing profile id, an upload whose declared content
type is not `"application/pdf"` or whose lowered filename extension is
not `".pdf"` fails with 400 and leaves the state unchanged (no row, no
file); an upload is accepted only when both checks pass, and passes
both checks (plus the fresh primary key) only when it is accepted. -/
theorem upload_pdf_validation (cfg : Settings) (pid : String)
    (fn ct : Option String) (contents : List Nat) (fid : String) (now : Nat)
    (wok : Bool) (s : ServerState) (p : Profile)
    (hp : s.profiles.find? (fun q => q.id == pid) = some p) :
    ((ct ≠ some "application/pdf" ∨ lowerStr (splitextExt (fn.getD "")) ≠ ".pdf") →
      upload_submission cfg pid fn ct contents fid now wok s
        = (.error .invalidFileType400, s)) ∧
    (∀ sub s', upload_submission cfg pid fn ct contents fid now wok s = (.ok sub, s') →
      ct = some "application/pdf" ∧ lowerStr (splitextExt (fn.getD "")) = ".pdf") ∧
    (ct = some "application/pdf" → lowerStr (splitextExt (fn.getD "")) = ".pdf" →
      s.submissions.any (fun r => r.id == fid) = false →
      ∃ sub s', upload_submission cfg pid fn ct contents fid now wok s
        = (.ok sub, s')) := by
  refine ⟨?_, ?_, ?_⟩
  · intro hbad
    unfold upload_submission
    rw [hp, ensure_pdf_upload_error hbad]
  · intro sub s' h
    obtain ⟨-, hok, -, -, -⟩ := upload_submission_ok h
    exact ensure_pdf_upload_accepts_inv hok
  · intro h1 h2 hany
    exact upload_submission_accepts hp (ensure_pdf_upload_accepts h1 h2) hany

/-- C4 witness: uploading `img.png` with content type `image/png` for
the existing profile is rejected with 400 and no state change, and the
PDF upload of the sample run is accepted. -/
theorem upload_pdf_validation_witness :
    upload_submission cfg0 "p1" (some "img.png") (some "image/png") pdfBytes
      "s9" 7 true st1 = (.error .invalidFileType400, st1) ∧
    ∃ sub s', upload_submission cfg0 "p1" (some "resume.pdf")
      (some "application/pdf") pdfBytes "s1" 1 true st1 = (.ok sub, s') := by
  constructor
  · exact (upload_pdf_validation cfg0 "p1" (some "img.png") (some "image/png")
      pdfBytes "s9" 7 true st1 prof0 (by decide)).1 (Or.inl (by decide))
  · exact (upload_pdf_validation cfg0 "p1" (some "resume.pdf")
      (some "application/pdf") pdfBytes "s1" 1 true st1 prof0 (by decide)).2.2
      rfl (by decide) (by decide)

/-- C5: a successful upload creates its row with `status = "UPLOADED"`
and `locked = false`, appends exactly that row to the table, and the
file is written (when the write succeeds) to
`uploadPath upload_dir id`, a path built from the fresh id alone —
never from the client filename — and injective in the id, so distinct
submissions never share a path; the row is committed even when the
subsequent file write fails. -/
theorem upload_success_persistence (cfg : Settings) (pid : String)
    (fn ct : Option String) (contents : List Nat) (fid : String) (now : Nat)
    (wok : Bool) (s : ServerState) (sub : Submission) (s' : ServerState)
    (h : upload_submission cfg pid fn ct contents fid now wok s = (.ok sub, s')) :
    sub.status = "UPLOADED" ∧ sub.locked = false ∧ sub.id = fid ∧
    s'.profiles = s.profiles ∧ s'.pending = s.pending ∧
    s'.submissions = s.submissions ++ [sub] ∧
    (wok = true →
      s'.files = s.files ++ [(uploadPath cfg.upload_dir sub.id, contents)]) ∧
    (wok = false → s'.files = s.files) ∧
    (∀ fid₂, fid₂ ≠ sub.id →
      uploadPath cfg.upload_dir fid₂ ≠ uploadPath cfg.upload_dir sub.id) := by
  obtain ⟨-, -, -, hsub, rfl⟩ := upload_submission_ok h
  subst hsub
  refine ⟨rfl, rfl, rfl, rfl, rfl, rfl, ?_, ?_, ?_⟩
  · intro hw
    subst hw
    rfl
  · intro hw
    subst hw
    rfl
  · intro fid₂ hne hcon
    exact hne (uploadPath_inj hcon)

/-- C5 witness: the sample upload instantiates the success contract;
in particular the written path collides with no other id's path. -/
theorem upload_success_persistence_witness :
    sub0.status = "UPLOADED" ∧
    st2.submissions = st1.submissions ++ [sub0] ∧
    uploadPath cfg0.upload_dir "s2" ≠ uploadPath cfg0.upload_dir sub0.id := by
  obtain ⟨h1, -, -, -, -, h6, -, -, h9⟩ :=
    upload_success_persistence cfg0 "p1" (some "resume.pdf")
      (some "application/pdf") pdfBytes "s1" 1 true st1 sub0 st2 (by decide)
  exact ⟨h1, h6, h9 "s2" (by decide)⟩

/-- C6: the completion task is a silent no-op leaving the whole state
unchanged when the submission id no longer resolves; otherwise it sets
exactly that row's status to `"COMPLETED"` and changes no other field,
no other row, no profile, no file and no pending task. -/
theorem process_submission_spec (sid : String) (s : ServerState) :
    (s.submissions.find? (fun r => r.id == sid) = none →
      process_submission sid s = s) ∧
    (∀ sub, s.submissions.find? (fun r => r.id == sid) = some sub →
      (process_submission sid s).profiles = s.profiles ∧
      (process_submission sid s).files = s.files ∧
      (process_submission sid s).pending = s.pending ∧
      (process_submission sid s).submissions.length = s.submissions.length ∧
      (∀ (k : Nat) (r r' : Submission), s.submissions[k]? = some r →
        (process_submission sid s).submissions[k]? = some r' →
        r'.id = r.id ∧ r'.profile_id = r.profile_id ∧ r'.filename = r.filename ∧
        r'.locked = r.locked ∧ r'.created_at = r.created_at ∧
        (r.id ≠ sid → r'.status = r.status) ∧
        (r.id = sid → r'.status = "COMPLETED"))) := by
  constructor
  · intro hnone
    unfold process_submission
    rw [hnone]
  · intro sub hfind
    have hsubs : (process_submission sid s).submissions =
        updateById sid (fun r => { r with status := "COMPLETED" }) s.submissions := by
      unfold process_submission
      rw [hfind]
    refine ⟨process_submission_profiles sid s, process_submission_files sid s,
      process_submission_pending sid s, ?_, ?_⟩
    · rw [hsubs]
      unfold updateById
      rw [List.length_map]
    · intro k r r' hk hk'
      rw [hsubs] at hk'
      unfold updateById at hk'
      rw [List.getElem?_map, hk, Option.map_some', Option.some.injEq] at hk'
      by_cases hb : (r.id == sid) = true
      · rw [if_pos hb] at hk'
        rw [← hk']
        refine ⟨rfl, rfl, rfl, rfl, rfl, ?_, fun _ => rfl⟩
        intro hne
        exact absurd (by simpa using hb) hne
      · rw [if_neg hb] at hk'
        rw [← hk']
        refine ⟨rfl, rfl, rfl, rfl, rfl, fun _ => rfl, ?_⟩
        intro he
        exact absurd (beq_iff_eq.mpr he) hb

/-- C6 witness: the task on an unknown id leaves the post-submit state
untouched, and on `"s1"` it changes no profile, file or pending entry. -/
theorem process_submission_spec_witness :
    process_submission "zzz" st3 = st3 ∧
    (process_submission "s1" st3).files = st3.files ∧
    (process_submission "s1" st3).pending = st3.pending := by
  obtain ⟨h1, -⟩ := process_submission_spec "zzz" st3
  obtain ⟨-, h2⟩ := process_submission_spec "s1" st3
  obtain ⟨-, hf, hp, -, -⟩ := h2 sub1 (by decide)
  exact ⟨h1 (by decide), hf, hp⟩

/-- C7: along any step taken from a reachable state, a locked row stays
locked, a row in status `"PROCESSING"` never returns to `"UPLOADED"`,
and no row of the successor state carries status `"REJECTED"`. -/
theorem submission_temporal_monotone (cfg : Settings) (s t : ServerState)
    (hr : Reachable cfg s) (hstep : Step cfg s t) :
    (∀ sub ∈ s.submissions, ∀ sub' ∈ t.submissions, sub'.id = sub.id →
      (sub.locked = true → sub'.locked = true) ∧
      (sub.status = "PROCESSING" → sub'.status ≠ "UPLOADED")) ∧
    (∀ sub' ∈ t.submissions, sub'.status ≠ "REJECTED") := by
  obtain ⟨hso, hpend, hnd⟩ := subInv_reachable hr
  constructor
  · intro sub hm sub' hm' hid
    cases hstep with
    | create_profile_step payload fid now prof _ _ hfresh hne h =>
      obtain ⟨-, -, -, rfl⟩ := create_profile_ok h
      have hm'' : sub' ∈ s.submissions := hm'
      have hrs := List.inj_on_of_nodup_map hnd hm'' hm hid
      subst hrs
      exact ⟨fun h => h, fun hp => by rw [hp]; decide⟩
    | upload_step pid fn ct contents fid now wok subn _ _ hfresh hne h =>
      obtain ⟨-, -, -, hsubn, rfl⟩ := upload_submission_ok h
      subst hsubn
      have hm'' : sub' ∈ s.submissions ++
          [{ id := fid, profile_id := pid, filename := fn.getD "",
             status := "UPLOADED", locked := false, created_at := now }] := hm'
      rcases List.mem_append.mp hm'' with hx | hx
      · have hrs := List.inj_on_of_nodup_map hnd hx hm hid
        subst hrs
        exact ⟨fun h => h, fun hp => by rw [hp]; decide⟩
      · rcases List.mem_singleton.mp hx with rfl
        exfalso
        apply hfresh
        refine List.mem_append.mpr (Or.inr ?_)
        exact List.mem_map.mpr ⟨sub, hm, (show fid = sub.id from hid).symm⟩
    | submit_step sid subx _ _ h =>
      obtain ⟨sub₀, hfind, hl₀, -, rfl⟩ := submit_ok h
      have hm'' : sub' ∈ updateById sid
          (fun r => { r with locked := true, status := "PROCESSING" })
          s.submissions := hm'
      obtain ⟨r, hr, hxr⟩ := mem_updateById hm''
      subst hxr
      by_cases hb : (r.id == sid) = true
      · rw [if_pos hb] at hid ⊢
        have hrs := List.inj_on_of_nodup_map hnd hr hm hid
        subst hrs
        exact ⟨fun _ => rfl,
          fun _ => (by decide : ("PROCESSING" : String) ≠ "UPLOADED")⟩
      · rw [if_neg hb] at hid ⊢
        have hrs := List.inj_on_of_nodup_map hnd hr hm hid
        subst hrs
        exact ⟨fun h => h, fun hp => by rw [hp]; decide⟩
    | run_task_step sid _ hmem =>
      have hm'' : sub' ∈ (process_submission sid s).submissions := hm'
      rcases process_submission_submissions sid s with heq | heq
      · rw [heq] at hm''
        have hrs := List.inj_on_of_nodup_map hnd hm'' hm hid
        subst hrs
        exact ⟨fun h => h, fun hp => by rw [hp]; decide⟩
      · rw [heq] at hm''
        obtain ⟨r, hr, hxr⟩ := mem_updateById hm''
        subst hxr
        by_cases hb : (r.id == sid) = true
        · rw [if_pos hb] at hid ⊢
          have hrs := List.inj_on_of_nodup_map hnd hr hm hid
          subst hrs
          exact ⟨fun h => h,
            fun _ => (by decide : ("COMPLETED" : String) ≠ "UPLOADED")⟩
        · rw [if_neg hb] at hid ⊢
          have hrs := List.inj_on_of_nodup_map hnd hr hm hid
          subst hrs
          exact ⟨fun h => h, fun hp => by rw [hp]; decide⟩
  · intro sub' hm'
    have ht : SubInv t := subInv_step ⟨hso, hpend, hnd⟩ hstep
    obtain ⟨-, -, hstatus⟩ := ht.1 sub' hm'
    rcases hstatus with h | h | h <;> rw [h] <;> decide

/-- C7 witness: across the concrete submit step, the uploaded row's
lock and status move monotonically and the successor row is not
`"REJECTED"`. -/
theorem submission_temporal_monotone_witness :
    ((sub0.locked = true → sub1.locked = true) ∧
      (sub0.status = "PROCESSING" → sub1.status ≠ "UPLOADED")) ∧
    sub1.status ≠ "REJECTED" := by
  obtain ⟨h1, h2⟩ :=
    submission_temporal_monotone cfg0 st2 st3 reach_st2 step_st2_st3
  exact ⟨h1 sub0 (by decide) sub1 (by decide) (by decide), h2 sub1 (by decide)⟩

/-- C8 counterexample: a fully valid payload whose email already exists
in the database does not succeed — the unique email index rejects the
insert with an `IntegrityError` and no row is added — refuting the
claim that every payload with non-empty names and a valid email
succeeds. -/
theorem create_profile_duplicate_email_counterexample :
    validProfileCreate payload1 = true ∧
    create_profile payload1 "p2" 5 st1 = (.error .integrityError, st1) :=
  ⟨by decide, by decide⟩

/-- C8 (amended): an invalid payload fails with 422 and no state
change; a valid payload whose email is not already taken (and with the
fresh uuid distinct from existing ids and non-empty, as uuid4
guarantees) succeeds: exactly one profile row is appended and nothing
else changes, and the returned resource carries the fresh non-empty id,
a `created_at` not earlier than the request start, and the payload's
fields. -/
theorem create_profile_spec (payload : ProfileCreate) (fid : String) (now : Nat)
    (s : ServerState) :
    (validProfileCreate payload = false →
      create_profile payload fid now s = (.error .validationError422, s)) ∧
    (validProfileCreate payload = true → fid ∉ allIds s → fid ≠ "" →
      (∀ p ∈ s.profiles, p.email ≠ payload.email) →
      create_profile payload fid now s =
        (.ok (mkProfile payload fid now),
         { s with profiles := s.profiles ++ [mkProfile payload fid now] }) ∧
      (mkProfile payload fid now).id = fid ∧
      (mkProfile payload fid now).id ≠ "" ∧
      (mkProfile payload fid now).id ∉ s.profiles.map (fun p => p.id) ∧
      now ≤ (mkProfile payload fid now).created_at ∧
      (mkProfile payload fid now).first_name = payload.first_name ∧
      (mkProfile payload fid now).last_name = payload.last_name ∧
      (mkProfile payload fid now).email = payload.email ∧
      (mkProfile payload fid now).github_url = payload.github_url) := by
  constructor
  · intro hv
    unfold create_profile
    rw [if_pos (by simp [hv])]
  · intro hv hfresh hne hem
    have hany : s.profiles.any (fun p => p.id == fid || p.email == payload.email)
        = false := by
      rw [List.any_eq_false]
      intro p hp
      simp only [Bool.or_eq_true, beq_iff_eq, not_or]
      constructor
      · intro hcon
        exact hfresh (List.mem_append.mpr (Or.inl (List.mem_map.mpr ⟨p, hp, hcon⟩)))
      · exact hem p hp
    refine ⟨?_, rfl, hne, ?_, le_refl now, rfl, rfl, rfl, rfl⟩
    · unfold create_profile
      rw [if_neg (by simp [hv]), if_neg (by simp [hany])]
    · intro hcon
      exact hfresh (List.mem_append.mpr (Or.inl hcon))

/-- C8 witness: a payload with an empty first name fails with 422; the
sample payload on the empty state succeeds with the stated shape and a
non-empty id. -/
theorem create_profile_spec_witness :
    create_profile payloadBad "p1" 0 initialState
      = (.error .validationError422, initialState) ∧
    create_profile payload0 "p1" 0 initialState
      = (.ok (mkProfile payload0 "p1" 0),
         { initialState with
           profiles := initialState.profiles ++ [mkProfile payload0 "p1" 0] }) ∧
    (mkProfile payload0 "p1" 0).id ≠ "" := by
  obtain ⟨h1, -⟩ := create_profile_spec payloadBad "p1" 0 initialState
  obtain ⟨-, h2⟩ := create_profile_spec payload0 "p1" 0 initialState
  obtain ⟨ha, -, hb, -⟩ :=
    h2 (by decide) (by decide) (by decide) (by simp [initialState])
  exact ⟨h1 (by decide), ha, hb⟩

/-- C9: the upload outcome is identical under two configurations that
differ only in `allowed_file_types` and `max_file_size_mb` (neither is
read by the handler), and the response does not depend on the uploaded
bytes at all, so no size limit is enforced. -/
theorem upload_independent_of_limits (cfg₁ cfg₂ : Settings) (pid : String)
    (fn ct : Option String) (contents contents₂ : List Nat) (fid : String)
    (now : Nat) (wok : Bool) (s : ServerState)
    (htok : cfg₁.api_token = cfg₂.api_token)
    (hdb : cfg₁.database_url = cfg₂.database_url)
    (hdir : cfg₁.upload_dir = cfg₂.upload_dir)
    (hcors : cfg₁.enable_cors = cfg₂.enable_cors)
    (horig : cfg₁.cors_origins = cfg₂.cors_origins)
    (hlog : cfg₁.log_level = cfg₂.log_level) :
    upload_submission cfg₁ pid fn ct contents fid now wok s
      = upload_submission cfg₂ pid fn ct contents fid now wok s ∧
    (upload_submission cfg₁ pid fn ct contents fid now wok s).1
      = (upload_submission cfg₁ pid fn ct contents₂ fid now wok s).1 := by
  constructor
  · unfold upload_submission
    rw [hdir]
  · unfold upload_submission
    cases s.profiles.find? (fun p => p.id == pid) with
    | none => rfl
    | some p =>
      cases ensure_pdf_upload ct fn with
      | error e => rfl
      | ok u =>
        cases u
        by_cases hany : s.submissions.any (fun r => r.id == fid) = true
        · rw [if_pos hany, if_pos hany]
        · rw [if_neg hany, if_neg hany]

/-- C9 witness: the sample upload behaves identically under `cfg0` and
under `cfg1` (which allows only `png` and sets a 0 MB limit), and its
response ignores the uploaded bytes. -/
theorem upload_independent_of_limits_witness :
    upload_submission cfg0 "p1" (some "resume.pdf") (some "application/pdf")
        pdfBytes "s1" 1 true st1
      = upload_submission cfg1 "p1" (some "resume.pdf") (some "application/pdf")
        pdfBytes "s1" 1 true st1 ∧
    (upload_submission cfg0 "p1" (some "resume.pdf") (some "application/pdf")
        pdfBytes "s1" 1 true st1).1
      = (upload_submission cfg0 "p1" (some "resume.pdf") (some "application/pdf")
        [] "s1" 1 true st1).1 :=
  upload_independent_of_limits cfg0 cfg1 "p1" (some "resume.pdf")
    (some "application/pdf") pdfBytes [] "s1" 1 true st1 rfl rfl rfl rfl rfl rfl

/-- C10: creating a profile with an otherwise-valid payload whose email
already belongs to an existing profile fails with the `IntegrityError`
raised by the unique email index — a status (500) outside the
documented taxonomy — and no new row is persisted (the state is
returned unchanged). -/
theorem duplicate_email_rejected (payload : ProfileCreate) (fid : String)
    (now : Nat) (s : ServerState) (p : Profile)
    (hvalid : validProfileCreate payload = true)
    (hp : p ∈ s.profiles) (hemail : p.email = payload.email) :
    create_profile payload fid now s = (.error .integrityError, s) ∧
    ApiError.integrityError.statusCode ∉ [400, 401, 404, 409, 422] := by
  constructor
  · unfold create_profile
    have hany : s.profiles.any (fun q => q.id == fid || q.email == payload.email)
        = true :=
      List.any_eq_true.mpr ⟨p, hp, by simp [hemail]⟩
    rw [if_neg (by simp [hvalid]), if_pos hany]
  · decide

/-- C10 witness: re-using `prof0`'s email in a valid payload on the
sample state is rejected with the out-of-taxonomy error and no insert. -/
theorem duplicate_email_rejected_witness :
    create_profile payload1 "p9" 5 st1 = (.error .integrityError, st1) ∧
    ApiError.integrityError.statusCode ∉ [400, 401, 404, 409, 422] :=
  duplicate_email_rejected payload1 "p9" 5 st1 prof0 (by decide) (by decide)
    (by decide)

end ProfileIntake
